import Mathlib

/-!
Shallow embedding of the simulation core of `src/game.js` (Asteroid
Destroyer).  JavaScript numbers are modelled as exact rationals (ℚ);
`Math.round` is Mathlib's `round` (round half up, as in JS for the values
that occur here).  Randomness (`Math.random()` draws) is passed in as
explicit parameters, each a rational in `[0,1)`.  Two places in the code
compute transcendental values that the game state never branches on:
polygon vertex angles (`(i/n)·2π`, used only for rendering) are stored in
units of full turns, and the unit direction vector `(dx/dist, dy/dist)`
obtained with `Math.sqrt` (plus `cos`/`sin` of a random particle angle)
is supplied as a parameter.  The strict comparison `Math.sqrt d < R`
that drives collision is embedded as `0 < R ∧ d < R^2`, which the lemma
`sqrt_lt_iff_sq` proves equivalent over the reals.
-/

namespace AsteroidGame

/-- CONFIG.initialLives (game.js line 12). -/
def initialLives : ℤ := 3

/-- CONFIG.baseAsteroidSpeed = 1.5 (game.js line 13). -/
def baseAsteroidSpeed : ℚ := 3/2

/-- CONFIG.asteroidSpawnInterval = 2000 (game.js line 14). -/
def asteroidSpawnInterval : ℚ := 2000

/-- CONFIG.minSpawnInterval = 500 (game.js line 15). -/
def minSpawnInterval : ℚ := 500

/-- CONFIG.difficultyRampTime = 30000 (game.js line 16). -/
def difficultyRampTime : ℚ := 30000

/-- CONFIG.cursorRadius = 60 (game.js line 17). -/
def cursorRadius : ℚ := 60

/-- CONFIG.comboTimeout = 2000 (game.js line 18). -/
def comboTimeout : ℚ := 2000

/-- CONFIG.particleCount = 20 (game.js line 21). -/
def particleCount : ℕ := 20

/-- CONFIG.trailLength = 15 (game.js line 22). -/
def trailLength : ℕ := 15

/-- CONFIG.fingerSmoothing = 0.3 (game.js line 25). -/
def fingerSmoothing : ℚ := 3/10

/-- Model of `state.fingerPosition` (game.js line 38). -/
structure FingerPosition where
  x : ℚ
  y : ℚ
  detected : Bool
deriving DecidableEq, Repr

/-- One entry of an asteroid's `vertices` array (game.js line 498).
The code stores `angle = (i/numVertices) * Math.PI * 2`; since the angle
is only ever read by the renderer, we store the rational turn fraction
`i/numVertices` (the angle divided by 2π). -/
structure Vertex where
  angle : ℚ
  radius : ℚ
deriving DecidableEq, Repr

/-- An element of `state.asteroids` (game.js lines 479-488). -/
structure Asteroid where
  x : ℚ
  y : ℚ
  vx : ℚ
  vy : ℚ
  radius : ℚ
  rotation : ℚ
  rotationSpeed : ℚ
  vertices : List Vertex
  hue : ℚ
deriving DecidableEq, Repr

/-- An element of `state.particles` (game.js lines 567-575). -/
structure Particle where
  x : ℚ
  y : ℚ
  vx : ℚ
  vy : ℚ
  radius : ℚ
  life : ℚ
  decay : ℚ
  hue : ℚ
deriving DecidableEq, Repr

/-- The mutable game state `state` (game.js lines 31-47), keeping the
fields the simulation core reads or writes.  `screenShake` is the
`screenShake.intensity` component (its x/y are only used by the
renderer); `handsReady`/`debugMode` only gate logging and tracking
bootstrap and are omitted. -/
structure GameState where
  isPlaying : Bool
  score : ℤ
  highScore : ℤ
  lives : ℤ
  combo : ℕ
  lastDestroyTime : ℚ
  fingerPosition : FingerPosition
  positionHistory : List (ℚ × ℚ)
  asteroids : List Asteroid
  particles : List Particle
  screenShake : ℚ
  gameTime : ℚ
  lastSpawnTime : ℚ
deriving DecidableEq, Repr

/-- The initial `state` literal (game.js lines 31-47); `hs` is the value
read from `localStorage` for `highScore`. -/
def initState (hs : ℤ) : GameState where
  isPlaying := false
  score := 0
  highScore := hs
  lives := initialLives
  combo := 1
  lastDestroyTime := 0
  fingerPosition := ⟨0, 0, false⟩
  positionHistory := []
  asteroids := []
  particles := []
  screenShake := 0
  gameTime := 0
  lastSpawnTime := 0

/-- Function `lerp` (game.js lines 451-453). -/
def lerp (a b t : ℚ) : ℚ := a + (b - a) * t

/-- Function `onHandResults` (game.js lines 347-397), restricted to its effect on
the game state (the tracking-canvas drawing is rendering only).
`hasHand` is `results.multiHandLandmarks.length > 0`; `(u, v)` is
landmark 8 (`indexTip`); `cw`/`ch` are the game canvas dimensions. -/
def onHandResults (s : GameState) (hasHand : Bool) (u v cw ch : ℚ) :
    GameState :=
  if hasHand then
    let gameX := (1 - u) * cw
    let gameY := v * ch
    let fp := s.fingerPosition
    let nx := if fp.detected then lerp fp.x gameX fingerSmoothing else gameX
    let ny := if fp.detected then lerp fp.y gameY fingerSmoothing else gameY
    let hist := s.positionHistory ++ [(nx, ny)]
    let hist' := if trailLength < hist.length then hist.drop 1 else hist
    { s with fingerPosition := ⟨nx, ny, true⟩, positionHistory := hist' }
  else
    { s with fingerPosition :=
        { s.fingerPosition with detected := false } }

/-- Function `generateAsteroidShape` (game.js lines 491-502).  `uCount` is the
draw for the vertex count, `us i` the draw for vertex `i`'s radius
factor.  Angles are stored in turns (see `Vertex`). -/
def generateAsteroidShape (uCount : ℚ) (us : ℕ → ℚ) : List Vertex :=
  let numVertices : ℕ := 8 + (⌊uCount * 5⌋).toNat
  (List.range numVertices).map fun (i : ℕ) =>
    ⟨(i : ℚ) / (numVertices : ℚ), 7/10 + us i * (3/10)⟩

/-- Local `difficultyMultiplier` of `spawnAsteroid` (game.js line 476). -/
def difficultyMultiplier (t : ℚ) : ℚ := min 2 (1 + t / difficultyRampTime)

/-- The `speed` local of `spawnAsteroid` (game.js line 477); `u` is the
`Math.random()` draw. -/
def spawnSpeed (t u : ℚ) : ℚ :=
  baseAsteroidSpeed * difficultyMultiplier t * (8/10 + u * (4/10))

/-- The random draws consumed by one `spawnAsteroid` call.  `x`/`y` come
from the random edge choice (game.js lines 460-468); `dirx`/`diry` are
the components `dx/dist`, `dy/dist` of the normalized aim direction
(lines 470-474, computed with `Math.sqrt`); `rot0` is the random initial
rotation `Math.random()*π*2` (line 484). -/
structure SpawnDraws where
  x : ℚ
  y : ℚ
  dirx : ℚ
  diry : ℚ
  rot0 : ℚ
  uSpeed : ℚ
  uRadius : ℚ
  uRotSpeed : ℚ
  uHue : ℚ
  uCount : ℚ
  shapeUs : ℕ → ℚ

/-- The asteroid pushed by `spawnAsteroid` (game.js lines 458-489) at
elapsed game time `t`. -/
def spawnAsteroid (t : ℚ) (d : SpawnDraws) : Asteroid where
  x := d.x
  y := d.y
  vx := d.dirx * spawnSpeed t d.uSpeed
  vy := d.diry * spawnSpeed t d.uSpeed
  radius := 30 + d.uRadius * 30
  rotation := d.rot0
  rotationSpeed := (d.uRotSpeed - 1/2) * (5/100)
  vertices := generateAsteroidShape d.uCount d.shapeUs
  hue := 20 + d.uHue * 20

/-- The random draws for one particle of `createExplosion` (game.js
lines 562-575).  `cosA`/`sinA` are `cos angle`/`sin angle` for the
random angle of line 563. -/
structure ParticleDraw where
  cosA : ℚ
  sinA : ℚ
  uSpeed : ℚ
  uRadius : ℚ
  uDecay : ℚ
  uHue : ℚ

/-- Function `createExplosion` (game.js lines 559-577): the list of particles
pushed for an explosion of size `size` at `(x, y)`. -/
def createExplosion (x y size : ℚ) (draw : ℕ → ParticleDraw) :
    List Particle :=
  let n : ℕ := (⌊(particleCount : ℚ) * (size / 30)⌋).toNat
  (List.range n).map fun i =>
    let d := draw i
    { x := x, y := y
      vx := d.cosA * (2 + d.uSpeed * 5)
      vy := d.sinA * (2 + d.uSpeed * 5)
      radius := 3 + d.uRadius * 5
      life := 1
      decay := 2/100 + d.uDecay * (2/100)
      hue := d.uHue * 60 + 10 }

/-- The per-particle update of `updateParticles` (game.js lines
583-588). -/
def stepParticle (p : Particle) : Particle :=
  { p with
    x := p.x + p.vx
    y := p.y + p.vy
    vx := p.vx * (98/100)
    vy := p.vy * (98/100)
    life := p.life - p.decay
    radius := p.radius * (97/100) }

/-- The removal test of `updateParticles` (game.js line 590). -/
def particleDead (p : Particle) : Bool :=
  decide (p.life ≤ 0) || decide (p.radius < 1/2)

/-- Function `updateParticles` (game.js lines 579-594).  The code iterates from
the last index down to 0, updating each particle in place and splicing
it out when dead; each particle is processed independently and a splice
at index `i` does not disturb indices below `i`, so the pass acts
elementwise and preserves the relative order of survivors. -/
def updateParticles : List Particle → List Particle
  | [] => []
  | p :: rest =>
    let q := stepParticle p
    let tail := updateParticles rest
    if particleDead q then tail else q :: tail

/-- The per-asteroid motion update of `updateAsteroids` (game.js lines
512-514). -/
def moveAsteroid (a : Asteroid) : Asteroid :=
  { a with
    x := a.x + a.vx
    y := a.y + a.vy
    rotation := a.rotation + a.rotationSpeed }

/-- The cursor-collision test of `updateAsteroids` (game.js lines
517-522): `detected && Math.sqrt(dx²+dy²) < radius + cursorRadius`.
The strict square-root comparison is embedded squared; `sqrt_lt_iff_sq`
shows `√d < R ↔ 0 < R ∧ d < R²` over the reals. -/
def cursorHit (a : Asteroid) (f : FingerPosition) : Bool :=
  f.detected
    && decide (0 < a.radius + cursorRadius)
    && decide ((a.x - f.x)^2 + (a.y - f.y)^2 < (a.radius + cursorRadius)^2)

/-- The center-zone test of `updateAsteroids` (game.js lines 543-548):
`Math.sqrt((x-cx)²+(y-cy)²) < 50`, embedded squared (50 > 0). -/
def centerHit (a : Asteroid) (cx cy : ℚ) : Bool :=
  decide ((a.x - cx)^2 + (a.y - cy)^2 < 50^2)

/-- The destroy-event bookkeeping of `updateAsteroids` (game.js lines
526-538): combo update, last-destroy timestamp, score, screen shake.
`now` is `Date.now()`; `radius` the destroyed asteroid's radius. -/
def applyDestroy (s : GameState) (now radius : ℚ) : GameState :=
  let combo' : ℕ :=
    if now - s.lastDestroyTime < comboTimeout then min 10 (s.combo + 1)
    else 1
  let points : ℤ := round ((10 : ℚ) * (combo' : ℚ) * (radius / 30))
  { s with
    combo := combo'
    lastDestroyTime := now
    score := s.score + points
    screenShake := 10 }

/-- Function `gameOver` (game.js lines 836-853), restricted to its state effect:
stop playing and update the persisted high score when strictly
exceeded.  The DOM updates and the 500 ms result-screen delay are
presentation only. -/
def gameOver (s : GameState) : GameState :=
  { s with
    isPlaying := false
    highScore := if s.highScore < s.score then s.score else s.highScore }

/-- Function `loseLife` (game.js lines 827-834). -/
def loseLife (s : GameState) : GameState :=
  let s' := { s with lives := s.lives - 1 }
  if s'.lives ≤ 0 then gameOver s' else s'

/-- The body of one `updateAsteroids` loop iteration (game.js lines
510-552) for the asteroid `a`, acting on the state `s` whose
`asteroids` field accumulates the survivors of later-processed
entries.  Note the loop has no `isPlaying` check: it runs to completion
even after `loseLife` triggers `gameOver`. -/
def processAsteroid (now cx cy : ℚ) (draw : ℕ → ParticleDraw)
    (a : Asteroid) (s : GameState) : GameState :=
  let a' := moveAsteroid a
  if cursorHit a' s.fingerPosition then
    let s' := { s with
      particles := s.particles ++ createExplosion a'.x a'.y a'.radius draw }
    applyDestroy s' now a'.radius
  else if centerHit a' cx cy then
    { loseLife s with screenShake := 20 }
  else
    { s with asteroids := a' :: s.asteroids }

/-- The backward loop of `updateAsteroids` (game.js lines 509-553): the
code iterates from the last index down to 0, so the head of the list is
processed last; `splice(i, 1)` removes only index `i` and leaves the
not-yet-visited lower indices in place, and survivors keep their
relative order.  `draws i` supplies the explosion draws for the
asteroid at index `i`. -/
def updateAsteroidsAux (now cx cy : ℚ) (draws : ℕ → ℕ → ParticleDraw) :
    ℕ → List Asteroid → GameState → GameState
  | _, [], s => s
  | i, a :: rest, s =>
    processAsteroid now cx cy (draws i) a
      (updateAsteroidsAux now cx cy draws (i + 1) rest s)

/-- Function `updateAsteroids` (game.js lines 504-554).  `cw`/`ch` are the game
canvas dimensions (the code derives the protected center from them);
the `deltaTime` parameter of the code is unused by its body.  The
unused accumulated state starts with an empty survivor list. -/
def updateAsteroids (now cw ch : ℚ) (draws : ℕ → ℕ → ParticleDraw)
    (s : GameState) : GameState :=
  updateAsteroidsAux now (cw / 2) (ch / 2) draws 0 s.asteroids
    { s with asteroids := [] }

/-- The `spawnInterval` local of `gameLoop` (game.js lines 804-807). -/
def spawnInterval (gameTime : ℚ) : ℚ :=
  max minSpawnInterval (asteroidSpawnInterval - gameTime / 100)

/-- One `gameLoop` invocation (game.js lines 795-825), minus rendering
and rescheduling.  `currentTime` is the `requestAnimationFrame`
timestamp, `lastFrame` the module-level `lastFrameTime`, `now` the
`Date.now()` value used by destroy events and the combo-timeout check;
`sd` are the draws of a potential spawn and `draws` those of potential
explosions.  The early `if (!state.isPlaying) return` is the identity
branch. -/
def gameLoopStep (s : GameState) (currentTime lastFrame now cw ch : ℚ)
    (sd : SpawnDraws) (draws : ℕ → ℕ → ParticleDraw) : GameState :=
  if s.isPlaying then
    let deltaTime := currentTime - lastFrame
    let s1 := { s with gameTime := s.gameTime + deltaTime }
    let s2 :=
      if spawnInterval s1.gameTime < currentTime - s1.lastSpawnTime then
        { s1 with
          asteroids := s1.asteroids ++ [spawnAsteroid s1.gameTime sd]
          lastSpawnTime := currentTime }
      else s1
    let s3 := updateAsteroids now cw ch draws s2
    let s4 := { s3 with particles := updateParticles s3.particles }
    if comboTimeout < now - s4.lastDestroyTime ∧ 1 < s4.combo then
      { s4 with combo := 1 }
    else s4
  else s

/-- The state-reset block of `startGame` (game.js lines 770-781).  The
webcam/tracking initialization and DOM work above it do not touch these
fields.  Note which fields of `state` the code does NOT reset:
`lastDestroyTime`, `highScore` (persisted by design) and
`screenShake`. -/
def startGame (s : GameState) : GameState :=
  { s with
    isPlaying := true
    score := 0
    lives := initialLives
    combo := 1
    asteroids := []
    particles := []
    gameTime := 0
    lastSpawnTime := 0
    fingerPosition := ⟨0, 0, false⟩
    positionHistory := [] }

/-- A sequence of game-overs at the session scores in `l`, threading
the persisted high score through `gameOver` each time. -/
def runGameOvers (hs : ℤ) (l : List ℤ) : ℤ :=
  l.foldl (fun h sc => (gameOver { (initState h) with score := sc }).highScore) hs

/-- An asteroid hovering motionless over the protected center zone of
an 800 by 600 canvas. -/
def centerAsteroid : Asteroid := ⟨400, 300, 0, 0, 30, 0, 0, [], 25⟩

/-- A constant draw oracle for explosion particles in concrete runs. -/
def constDraws : ℕ → ℕ → ParticleDraw := fun _ _ => ⟨1, 0, 0, 0, 0, 0⟩

/-- A mid-session state on an 800 by 600 canvas: playing, full 3
lives, hand not detected, four asteroids simultaneously inside the
center zone. -/
def quadCenterState : GameState :=
  { initState 0 with
    isPlaying := true
    asteroids := [centerAsteroid, centerAsteroid, centerAsteroid, centerAsteroid] }

/-!  Theorems.  -/

/-- Justification of the squared embedding of `Math.sqrt d < R`: over
the reals, for nonnegative `d`, the comparison is equivalent to
`0 < R ∧ d < R^2`, which is how `cursorHit` and `centerHit` state
it. -/
theorem sqrt_lt_iff_sq (d R : ℝ) :
    Real.sqrt d < R ↔ 0 < R ∧ d < R ^ 2 := by
  constructor
  · intro h
    have hR : 0 < R := lt_of_le_of_lt (Real.sqrt_nonneg d) h
    exact ⟨hR, (Real.sqrt_lt' hR).mp h⟩
  · rintro ⟨hR, hlt⟩
    exact (Real.sqrt_lt' hR).mpr hlt

/-- C1 (amended): `startGame` resets score, lives, combo, asteroid and
particle stores, game time, last-spawn time, cursor and trail — but it
does NOT reset the last-destroy timestamp used by the combo rule, which
carries over unchanged from the previous session. -/
theorem c1_startGame_reset (s : GameState) :
    (startGame s).score = 0 ∧
    (startGame s).lives = initialLives ∧
    (startGame s).combo = 1 ∧
    (startGame s).asteroids = [] ∧
    (startGame s).particles = [] ∧
    (startGame s).gameTime = 0 ∧
    (startGame s).lastSpawnTime = 0 ∧
    (startGame s).fingerPosition = ⟨0, 0, false⟩ ∧
    (startGame s).positionHistory = [] ∧
    (startGame s).lastDestroyTime = s.lastDestroyTime :=
  ⟨rfl, rfl, rfl, rfl, rfl, rfl, rfl, rfl, rfl, rfl⟩

/-- C1 counterexample: starting a new session over a previous session
whose last destroy happened at time 12345 leaves
`state.lastDestroyTime = 12345`: the per-session timing field of the
combo rule carries over, contradicting the claim that no such field
survives the start operation. -/
theorem c1_counterexample :
    (startGame { (initState 7) with
        isPlaying := true
        score := 90
        combo := 4
        lastDestroyTime := 12345 }).lastDestroyTime = 12345 ∧
    ¬ (startGame { (initState 7) with
        isPlaying := true
        score := 90
        combo := 4
        lastDestroyTime := 12345 }).lastDestroyTime = 0 := by
  refine ⟨rfl, ?_⟩
  decide

/-- Helper for C5: the high score only ever grows along a sequence of
game-overs. -/
theorem le_runGameOvers (hs : ℤ) (l : List ℤ) : hs ≤ runGameOvers hs l := by
  induction l generalizing hs with
  | nil => exact le_refl hs
  | cons x xs ih =>
    have hstep :
        hs ≤ (gameOver { (initState hs) with score := x }).highScore := by
      by_cases h : hs < x
      · simp [gameOver, initState, if_pos h]
        omega
      · simp [gameOver, initState, if_neg h]
    calc hs ≤ (gameOver { (initState hs) with score := x }).highScore := hstep
      _ ≤ runGameOvers (gameOver { (initState hs) with score := x }).highScore xs := ih _
      _ = runGameOvers hs (x :: xs) := rfl

/-- Helper for C5: game-overs whose scores do not exceed the stored
high score leave it unchanged. -/
theorem runGameOvers_unchanged (hs : ℤ) (l : List ℤ)
    (h : ∀ x ∈ l, x ≤ hs) : runGameOvers hs l = hs := by
  induction l with
  | nil => rfl
  | cons x xs ih =>
    have hx : x ≤ hs := h x (List.mem_cons_self x xs)
    have hstep : (gameOver { (initState hs) with score := x }).highScore = hs := by
      simp [gameOver, initState, if_neg (not_lt.mpr hx)]
    show runGameOvers (gameOver { (initState hs) with score := x }).highScore xs = hs
    rw [hstep]
    exact ih fun y hy => h y (List.mem_cons_of_mem x hy)

/-- C5: `gameOver` updates the persisted high score exactly when the
session score strictly exceeds it, never decreases it, and a sequence
of game-overs is monotone; game-overs at scores below or equal to the
stored value leave it unchanged. -/
theorem c5_highscore (s : GameState) (hs : ℤ) (l : List ℤ) :
    (s.highScore < s.score → (gameOver s).highScore = s.score) ∧
    (s.score ≤ s.highScore → (gameOver s).highScore = s.highScore) ∧
    s.highScore ≤ (gameOver s).highScore ∧
    hs ≤ runGameOvers hs l ∧
    ((∀ x ∈ l, x ≤ hs) → runGameOvers hs l = hs) := by
  refine ⟨?_, ?_, ?_, le_runGameOvers hs l, runGameOvers_unchanged hs l⟩
  · intro h
    simp [gameOver, if_pos h]
  · intro h
    simp [gameOver, if_neg (not_lt.mpr h)]
  · by_cases h : s.highScore < s.score
    · simp only [gameOver, if_pos h]
      exact le_of_lt h
    · simp only [gameOver, if_neg h]
      exact le_refl _

/-- C5 witness: a game-over at score 90 over stored high score 7 raises
it to 90; running the scores 3, 7, 5 over stored high score 90 leaves
it at 90. -/
theorem c5_witness :
    (({ (initState 7) with score := 90 } : GameState).highScore <
        ({ (initState 7) with score := 90 } : GameState).score ∧
      (∀ x ∈ ([3, 7, 5] : List ℤ), x ≤ (90 : ℤ))) ∧
    (gameOver { (initState 7) with score := 90 }).highScore = 90 ∧
    runGameOvers 90 [3, 7, 5] = 90 := by
  refine ⟨⟨by decide, by decide⟩, ?_, ?_⟩
  · exact (c5_highscore { (initState 7) with score := 90 } 90 [3, 7, 5]).1
      (by decide)
  · exact (c5_highscore { (initState 7) with score := 90 } 90 [3, 7, 5]).2.2.2.2
      (by decide)

/-- C9: with a detection this frame, the raw tracker sample `(u, v)` is
mirrored to the target `((1-u)·cw, v·ch)`; if the previous frame also
had a detection the cursor moves to `pos + 0.3·(target - pos)` in each
coordinate, otherwise the target is taken directly with no smoothing. -/
theorem c9_input_mapping (s : GameState) (u v cw ch : ℚ) :
    (s.fingerPosition.detected = false →
      (onHandResults s true u v cw ch).fingerPosition.x = (1 - u) * cw ∧
      (onHandResults s true u v cw ch).fingerPosition.y = v * ch) ∧
    (s.fingerPosition.detected = true →
      (onHandResults s true u v cw ch).fingerPosition.x =
        s.fingerPosition.x + (3/10) * ((1 - u) * cw - s.fingerPosition.x) ∧
      (onHandResults s true u v cw ch).fingerPosition.y =
        s.fingerPosition.y + (3/10) * (v * ch - s.fingerPosition.y)) ∧
    (onHandResults s true u v cw ch).fingerPosition.detected = true := by
  unfold onHandResults
  refine ⟨fun h => ?_, fun h => ?_, ?_⟩
  · simp [h, lerp]
  · simp only [if_pos rfl, h, if_true, fingerSmoothing, lerp]
    constructor <;> ring
  · simp

/-- C9 witness: a sample `(1/4, 1/2)` on an 800 by 600 canvas with no
previous detection lands the cursor directly at `(600, 300)`. -/
theorem c9_witness :
    ((initState 0).fingerPosition.detected = false) ∧
    (onHandResults (initState 0) true (1/4) (1/2) 800 600).fingerPosition.x
      = (1 - 1/4) * 800 ∧
    (onHandResults (initState 0) true (1/4) (1/2) 800 600).fingerPosition.y
      = (1/2) * 600 :=
  ⟨rfl,
    (c9_input_mapping (initState 0) (1/4) (1/2) 800 600).1 rfl |>.1,
    (c9_input_mapping (initState 0) (1/4) (1/2) 800 600).1 rfl |>.2⟩

/-- Helper for C10 and C7: the backward splice loop of
`updateParticles` is map-then-filter (each particle stepped exactly
once, dead ones dropped, order preserved). -/
theorem updateParticles_eq (ps : List Particle) :
    updateParticles ps =
      (ps.map stepParticle).filter (fun p => !particleDead p) := by
  induction ps with
  | nil => rfl
  | cons p rest ih =>
    simp only [updateParticles, List.map_cons, List.filter_cons, ih]
    by_cases h : particleDead (stepParticle p)
    · simp [h]
    · simp [h]

/-- C10: after a particle-update pass every surviving particle has
positive life and radius at least 0.5, the pass never adds particles,
and the pass is exactly one `stepParticle` application to each input
particle followed by dropping the dead ones (so each survivor is
updated exactly once, independent of which others were removed). -/
theorem c10_particle_pass (ps : List Particle) :
    updateParticles ps =
      (ps.map stepParticle).filter (fun p => !particleDead p) ∧
    (∀ p ∈ updateParticles ps, 0 < p.life ∧ 1/2 ≤ p.radius) ∧
    (updateParticles ps).length ≤ ps.length := by
  refine ⟨updateParticles_eq ps, ?_, ?_⟩
  · intro p hp
    rw [updateParticles_eq] at hp
    have hkeep := List.of_mem_filter hp
    simp only [particleDead, Bool.not_eq_true', Bool.or_eq_false_iff,
      decide_eq_false_iff_not, not_le, not_lt] at hkeep
    exact ⟨hkeep.1, hkeep.2⟩
  · rw [updateParticles_eq]
    calc ((ps.map stepParticle).filter (fun p => !particleDead p)).length
        ≤ (ps.map stepParticle).length := List.length_filter_le _ _
      _ = ps.length := List.length_map _ _

/-- C10 witness: a pass over one healthy particle keeps its stepped
version, which still has positive life and radius at least 0.5. -/
theorem c10_witness :
    (stepParticle ⟨0, 0, 0, 0, 5, 1, 1/100, 30⟩ ∈
      updateParticles [⟨0, 0, 0, 0, 5, 1, 1/100, 30⟩]) ∧
    (0 < (stepParticle ⟨0, 0, 0, 0, 5, 1, 1/100, 30⟩).life ∧
      1/2 ≤ (stepParticle ⟨0, 0, 0, 0, 5, 1, 1/100, 30⟩).radius) ∧
    (updateParticles [⟨0, 0, 0, 0, 5, 1, 1/100, 30⟩]).length ≤
      [(⟨0, 0, 0, 0, 5, 1, 1/100, 30⟩ : Particle)].length :=
  have hmem : stepParticle ⟨0, 0, 0, 0, 5, 1, 1/100, 30⟩ ∈
      updateParticles [⟨0, 0, 0, 0, 5, 1, 1/100, 30⟩] := by
    norm_num [updateParticles, particleDead, stepParticle]
  ⟨hmem,
    (c10_particle_pass [⟨0, 0, 0, 0, 5, 1, 1/100, 30⟩]).2.1
      (stepParticle ⟨0, 0, 0, 0, 5, 1, 1/100, 30⟩) hmem,
    (c10_particle_pass [⟨0, 0, 0, 0, 5, 1, 1/100, 30⟩]).2.2⟩

/-- C3 (amended): the destroy handler increments the combo (capped at
10) when the previous destroy was strictly less than 2000 ms ago and
resets it to 1 otherwise, stamps the last-destroy time, and adds
`round(10 · combo · (r/30))` (with the updated combo) to the score.
For a fresh session whose first destroy happens at wall-clock time
`T ≥ 2000` (any realistic `Date.now()`, since the stored last-destroy
time starts at 0), destroys of radius-30 asteroids at `T`, `T + 500`
and `T + 3000` yield combos 1, 2, 1 — and a total score of exactly 40,
not the 50 stated in the claim. -/
theorem c3_combo_score (s : GameState) (now r T : ℚ) (hT : 2000 ≤ T) :
    (now - s.lastDestroyTime < comboTimeout →
      (applyDestroy s now r).combo = min 10 (s.combo + 1)) ∧
    (¬ now - s.lastDestroyTime < comboTimeout →
      (applyDestroy s now r).combo = 1) ∧
    (applyDestroy s now r).lastDestroyTime = now ∧
    (applyDestroy s now r).score =
      s.score + round ((10 : ℚ) * ((applyDestroy s now r).combo : ℚ) * (r / 30)) ∧
    ((applyDestroy (applyDestroy (applyDestroy
        (startGame (initState 0)) T 30) (T + 500) 30) (T + 3000) 30).score = 40 ∧
      (applyDestroy (startGame (initState 0)) T 30).combo = 1 ∧
      (applyDestroy (applyDestroy
        (startGame (initState 0)) T 30) (T + 500) 30).combo = 2 ∧
      (applyDestroy (applyDestroy (applyDestroy
        (startGame (initState 0)) T 30) (T + 500) 30) (T + 3000) 30).combo = 1) := by
  have h1 : ¬ T - (startGame (initState 0)).lastDestroyTime < comboTimeout := by
    show ¬ T - 0 < 2000
    push_neg
    linarith
  refine ⟨fun h => ?_, fun h => ?_, ?_, ?_, ?_⟩
  · simp only [applyDestroy, if_pos h]
  · simp only [applyDestroy, if_neg h]
  · simp only [applyDestroy]
  · by_cases h : now - s.lastDestroyTime < comboTimeout <;>
      simp only [applyDestroy, if_pos, if_neg, h, if_true, if_false]
  · have e1 : applyDestroy (startGame (initState 0)) T 30 =
        { startGame (initState 0) with
          combo := 1, lastDestroyTime := T, score := 10, screenShake := 10 } := by
      simp only [applyDestroy, if_neg h1]
      norm_num [startGame, initState]
    have h2 : (T + 500) - T < comboTimeout := by
      show (T + 500) - T < 2000
      linarith
    have e2 : applyDestroy { startGame (initState 0) with
          combo := 1, lastDestroyTime := T, score := 10, screenShake := 10 }
          (T + 500) 30 =
        { startGame (initState 0) with
          combo := 2, lastDestroyTime := T + 500, score := 30,
          screenShake := 10 } := by
      simp only [applyDestroy, if_pos h2]
      norm_num [startGame, initState]
    have h3 : ¬ (T + 3000) - (T + 500) < comboTimeout := by
      show ¬ (T + 3000) - (T + 500) < 2000
      push_neg
      linarith
    have e3 : applyDestroy { startGame (initState 0) with
          combo := 2, lastDestroyTime := T + 500, score := 30,
          screenShake := 10 } (T + 3000) 30 =
        { startGame (initState 0) with
          combo := 1, lastDestroyTime := T + 3000, score := 40,
          screenShake := 10 } := by
      simp only [applyDestroy, if_neg h3]
      norm_num [startGame, initState]
    rw [e1, e2, e3]
    simp

/-- C3 witness: the amended combo/score sequence at the concrete start
time `T = 10000`. -/
theorem c3_witness :
    (2000 : ℚ) ≤ 10000 ∧
    (applyDestroy (applyDestroy (applyDestroy (startGame (initState 0))
        10000 30) (10000 + 500) 30) (10000 + 3000) 30).score = 40 :=
  ⟨by norm_num,
    ((c3_combo_score (initState 0) 0 30 10000 (by norm_num)).2.2.2.2).1⟩

/-- C3 counterexample: with the same fresh-session destroy sequence at
`T = 10000` the total score is 40, not 50 as the claim states. -/
theorem c3_counterexample :
    ¬ (applyDestroy (applyDestroy (applyDestroy (startGame (initState 0))
        10000 30) (10500 : ℚ) 30) (13000 : ℚ) 30).score = 50 := by
  norm_num [applyDestroy, startGame, initState, comboTimeout, round_eq]

/-- Helper for C7: closed forms for iterated particle stepping — the
life drops by the (unchanged) decay each step and the radius shrinks
geometrically. -/
theorem stepParticle_iterate (p : Particle) (k : ℕ) :
    (stepParticle^[k] p).life = p.life - k * p.decay ∧
    (stepParticle^[k] p).decay = p.decay ∧
    (stepParticle^[k] p).radius = p.radius * (97/100) ^ k := by
  induction k with
  | zero => simp
  | succ n ih =>
    rw [Function.iterate_succ_apply']
    refine ⟨?_, ih.2.1, ?_⟩
    · show (stepParticle^[n] p).life - (stepParticle^[n] p).decay = _
      rw [ih.1, ih.2.1]
      push_cast
      ring
    · show (stepParticle^[n] p).radius * (97/100) = _
      rw [ih.2.2]
      ring

/-- Helper for C7: a particle starting at life 1, decay 1/50 and radius
at least 3 survives the first 49 passes, each pass being exactly one
step. -/
theorem updateParticles_iterate (p : Particle) (h1 : p.life = 1)
    (h2 : p.decay = 1/50) (h3 : 3 ≤ p.radius) :
    ∀ k, k ≤ 49 → updateParticles^[k] [p] = [stepParticle^[k] p] := by
  intro k hk
  induction k with
  | zero => rfl
  | succ n ih =>
    have hn : n ≤ 49 := Nat.le_of_succ_le hk
    have hk49 : ((n : ℚ) + 1) ≤ 49 := by exact_mod_cast hk
    rw [Function.iterate_succ_apply', ih hn]
    have hiter := stepParticle_iterate p (n + 1)
    have hlife : ¬ (stepParticle^[n + 1] p).life ≤ 0 := by
      rw [hiter.1, h1, h2]
      push_cast
      intro habs
      linarith
    have hrad : ¬ (stepParticle^[n + 1] p).radius < 1/2 := by
      rw [hiter.2.2]
      have hpow : ((97 : ℚ)/100) ^ 49 ≤ ((97 : ℚ)/100) ^ (n + 1) :=
        pow_le_pow_of_le_one (by norm_num) (by norm_num) (by omega)
      have hbig : (1 : ℚ)/2 ≤ 3 * ((97 : ℚ)/100) ^ 49 := by norm_num
      have hmul : 3 * ((97 : ℚ)/100) ^ 49 ≤ p.radius * ((97 : ℚ)/100) ^ (n + 1) :=
        mul_le_mul h3 hpow (pow_nonneg (by norm_num) _)
          (le_trans (by norm_num) h3)
      intro habs
      linarith
    rw [show stepParticle^[n + 1] p = stepParticle (stepParticle^[n] p) from
      Function.iterate_succ_apply' stepParticle n p] at hlife hrad
    have hdeadfalse : particleDead (stepParticle (stepParticle^[n] p)) = false := by
      simp only [particleDead, Bool.or_eq_false_iff, decide_eq_false_iff_not]
      exact ⟨hlife, hrad⟩
    show updateParticles [stepParticle^[n] p] = [stepParticle^[n + 1] p]
    rw [show updateParticles [stepParticle^[n] p] =
        (if particleDead (stepParticle (stepParticle^[n] p)) then []
         else [stepParticle (stepParticle^[n] p)]) from rfl]
    rw [hdeadfalse, Function.iterate_succ_apply']
    simp

/-- C7: a particle with life 1 and decay 0.02 (and spawn-range radius,
at least 3) survives exactly 49 update passes — each pass applies one
step that lowers life by the unchanged decay, damps velocity by 0.98
and shrinks radius by 0.97 — still has positive life after step 49, and
is removed on the 50th pass; removal happens exactly when life ≤ 0 or
radius < 0.5. -/
theorem c7_particle_decay (p : Particle) (h1 : p.life = 1)
    (h2 : p.decay = 1/50) (h3 : 3 ≤ p.radius) :
    (∀ k, k ≤ 49 → updateParticles^[k] [p] = [stepParticle^[k] p]) ∧
    0 < (stepParticle^[49] p).life ∧
    updateParticles^[50] [p] = [] ∧
    (∀ q : Particle,
      (stepParticle q).life = q.life - q.decay ∧
      (stepParticle q).decay = q.decay ∧
      (stepParticle q).vx = q.vx * (98/100) ∧
      (stepParticle q).vy = q.vy * (98/100) ∧
      (stepParticle q).radius = q.radius * (97/100)) ∧
    (∀ q : Particle, particleDead q = true ↔ (q.life ≤ 0 ∨ q.radius < 1/2)) := by
  have hsurv := updateParticles_iterate p h1 h2 h3
  refine ⟨hsurv, ?_, ?_, ?_, ?_⟩
  · rw [(stepParticle_iterate p 49).1, h1, h2]
    norm_num
  · have h50 : updateParticles^[50] [p] =
        updateParticles [stepParticle^[49] p] := by
      rw [Function.iterate_succ_apply', hsurv 49 (by omega)]
    rw [h50]
    have hdead : (stepParticle (stepParticle^[49] p)).life ≤ 0 := by
      rw [show stepParticle (stepParticle^[49] p) = stepParticle^[50] p from
        (Function.iterate_succ_apply' stepParticle 49 p).symm]
      rw [(stepParticle_iterate p 50).1, h1, h2]
      norm_num
    have hdead' : particleDead (stepParticle (stepParticle^[49] p)) = true := by
      simp only [particleDead, Bool.or_eq_true, decide_eq_true_eq]
      exact Or.inl hdead
    rw [show updateParticles [stepParticle^[49] p] =
        (if particleDead (stepParticle (stepParticle^[49] p)) then []
         else [stepParticle (stepParticle^[49] p)]) from rfl]
    rw [hdead']
    simp
  · intro q
    exact ⟨rfl, rfl, rfl, rfl, rfl⟩
  · intro q
    simp [particleDead]

/-- C7 witness: the concrete spawn-shaped particle with radius 3, life
1 and decay 1/50 is gone after exactly 50 passes. -/
theorem c7_witness :
    ((⟨0, 0, 0, 0, 3, 1, 1/50, 30⟩ : Particle).life = 1 ∧
      (⟨0, 0, 0, 0, 3, 1, 1/50, 30⟩ : Particle).decay = 1/50 ∧
      3 ≤ (⟨0, 0, 0, 0, 3, 1, 1/50, 30⟩ : Particle).radius) ∧
    0 < (stepParticle^[49] (⟨0, 0, 0, 0, 3, 1, 1/50, 30⟩ : Particle)).life ∧
    updateParticles^[50] [(⟨0, 0, 0, 0, 3, 1, 1/50, 30⟩ : Particle)] = [] :=
  ⟨⟨rfl, rfl, by norm_num⟩,
    (c7_particle_decay ⟨0, 0, 0, 0, 3, 1, 1/50, 30⟩ rfl rfl (by norm_num)).2.1,
    (c7_particle_decay ⟨0, 0, 0, 0, 3, 1, 1/50, 30⟩ rfl rfl (by norm_num)).2.2.1⟩

/-- C8: the spawn interval equals `max(minSpawnInterval,
asteroidSpawnInterval - t/100)`, lies in `[500, 2000]` for `t ≥ 0` and
is antitone in elapsed game time; the difficulty multiplier
`min(2, 1 + t/difficultyRampTime)` lies in `[1, 2]` and is monotone;
and each spawned asteroid's speed is `baseAsteroidSpeed · multiplier ·
u` for some `u ∈ [0.8, 1.2)`, its velocity being that speed along the
spawn direction. -/
theorem c8_spawn_schedule (t t1 t2 u : ℚ) (ht : 0 ≤ t)
    (h12 : t1 ≤ t2) (hu0 : 0 ≤ u) (hu1 : u < 1) :
    spawnInterval t = max minSpawnInterval (asteroidSpawnInterval - t / 100) ∧
    minSpawnInterval ≤ spawnInterval t ∧
    spawnInterval t ≤ asteroidSpawnInterval ∧
    spawnInterval t2 ≤ spawnInterval t1 ∧
    1 ≤ difficultyMultiplier t ∧
    difficultyMultiplier t ≤ 2 ∧
    difficultyMultiplier t1 ≤ difficultyMultiplier t2 ∧
    (∃ w, 4/5 ≤ w ∧ w < 6/5 ∧
      spawnSpeed t u = baseAsteroidSpeed * difficultyMultiplier t * w) ∧
    (∀ d : SpawnDraws,
      (spawnAsteroid t d).vx = d.dirx * spawnSpeed t d.uSpeed ∧
      (spawnAsteroid t d).vy = d.diry * spawnSpeed t d.uSpeed) := by
  have ht100 : 0 ≤ t / 100 := by positivity
  have htramp : 0 ≤ t / difficultyRampTime := by
    have : (0:ℚ) < difficultyRampTime := by norm_num [difficultyRampTime]
    positivity
  refine ⟨rfl, le_max_left _ _, ?_, ?_, ?_, min_le_left _ _, ?_, ?_,
    fun d => ⟨rfl, rfl⟩⟩
  · apply max_le
    · norm_num [minSpawnInterval, asteroidSpawnInterval]
    · linarith
  · apply max_le_max le_rfl
    have : t1 / 100 ≤ t2 / 100 := by linarith
    linarith
  · apply le_min
    · norm_num
    · linarith
  · apply min_le_min le_rfl
    have h1r : t1 / difficultyRampTime ≤ t2 / difficultyRampTime :=
      (div_le_div_iff_of_pos_right (by norm_num [difficultyRampTime])).mpr h12
    linarith
  · refine ⟨8/10 + u * (4/10), by linarith, by linarith, rfl⟩

/-- C8 witness: at game time 0 the interval is at its 2000 ms ceiling
and at least the 500 ms floor, it does not grow by time 100, and the
speed factor exists for the draw 1/2. -/
theorem c8_witness :
    ((0:ℚ) ≤ 0 ∧ (0:ℚ) ≤ 100 ∧ (0:ℚ) ≤ 1/2 ∧ (1/2:ℚ) < 1) ∧
    minSpawnInterval ≤ spawnInterval 0 ∧
    spawnInterval 100 ≤ spawnInterval 0 ∧
    (∃ w, 4/5 ≤ w ∧ w < 6/5 ∧
      spawnSpeed 0 (1/2) =
        baseAsteroidSpeed * difficultyMultiplier 0 * w) := by
  obtain ⟨-, h2, -, h4, -, -, -, h8, -⟩ :=
    c8_spawn_schedule 0 0 100 (1/2) le_rfl (by norm_num) (by norm_num)
      (by norm_num)
  exact ⟨by norm_num, h2, h4, h8⟩

/-- Helper: `loseLife` touches only lives, isPlaying and the high
score — the stores, cursor and scoring state are untouched. -/
theorem loseLife_proj (s : GameState) :
    (loseLife s).asteroids = s.asteroids ∧
    (loseLife s).particles = s.particles ∧
    (loseLife s).fingerPosition = s.fingerPosition ∧
    (loseLife s).score = s.score ∧
    (loseLife s).combo = s.combo ∧
    (loseLife s).lastDestroyTime = s.lastDestroyTime ∧
    (loseLife s).lives = s.lives - 1 := by
  by_cases h : s.lives - 1 ≤ 0 <;> simp [loseLife, gameOver, h]

/-- Helper for C6: every asteroid left in the store by the update pass
keeps the polygon of an asteroid that entered the pass (the pass moves
asteroids but never rebuilds their shape). -/
theorem updateAsteroidsAux_vertices (now cx cy : ℚ)
    (draws : ℕ → ℕ → ParticleDraw) :
    ∀ (L : List Asteroid) (i : ℕ) (s : GameState),
      ∀ b ∈ (updateAsteroidsAux now cx cy draws i L s).asteroids,
        (∃ a ∈ L, b.vertices = a.vertices) ∨ b ∈ s.asteroids := by
  intro L
  induction L with
  | nil =>
    intro i s b hb
    exact Or.inr hb
  | cons a rest ih =>
    intro i s b hb
    simp only [updateAsteroidsAux, processAsteroid] at hb
    by_cases h1 : cursorHit (moveAsteroid a)
        (updateAsteroidsAux now cx cy draws (i + 1) rest s).fingerPosition
    · rw [if_pos h1] at hb
      have hb' : b ∈ (updateAsteroidsAux now cx cy draws (i + 1) rest s).asteroids := hb
      rcases ih (i + 1) s b hb' with ⟨c, hc, hv⟩ | h
      · exact Or.inl ⟨c, List.mem_cons_of_mem a hc, hv⟩
      · exact Or.inr h
    · rw [if_neg h1] at hb
      by_cases h2 : centerHit (moveAsteroid a) cx cy
      · rw [if_pos h2] at hb
        have hb' : b ∈ (updateAsteroidsAux now cx cy draws (i + 1) rest s).asteroids := by
          have heq : (({ loseLife (updateAsteroidsAux now cx cy draws (i + 1) rest s) with
              screenShake := 20 } : GameState)).asteroids =
              (updateAsteroidsAux now cx cy draws (i + 1) rest s).asteroids :=
            (loseLife_proj (updateAsteroidsAux now cx cy draws (i + 1) rest s)).1
          rw [heq] at hb
          exact hb
        rcases ih (i + 1) s b hb' with ⟨c, hc, hv⟩ | h
        · exact Or.inl ⟨c, List.mem_cons_of_mem a hc, hv⟩
        · exact Or.inr h
      · rw [if_neg h2] at hb
        rcases List.mem_cons.mp hb with hb1 | hb2
        · exact Or.inl ⟨a, List.mem_cons_self a rest, by rw [hb1]; rfl⟩
        · rcases ih (i + 1) s b hb2 with ⟨c, hc, hv⟩ | h
          · exact Or.inl ⟨c, List.mem_cons_of_mem a hc, hv⟩
          · exact Or.inr h

/-- C6: every spawned asteroid has radius in `[30, 60)`, between 8 and
12 polygon vertices each with radial factor in `[0.7, 1)`, rotation
speed in `[-0.025, 0.025)` and hue in `[20, 40)`; motion preserves the
polygon, every asteroid surviving an update pass keeps the polygon of
an input asteroid, and the particle pass does not touch the asteroid
store. -/
theorem c6_spawn_invariants (t : ℚ) (d : SpawnDraws)
    (hr0 : 0 ≤ d.uRadius) (hr1 : d.uRadius < 1)
    (hs0 : 0 ≤ d.uRotSpeed) (hs1 : d.uRotSpeed < 1)
    (hh0 : 0 ≤ d.uHue) (hh1 : d.uHue < 1)
    (hc0 : 0 ≤ d.uCount) (hc1 : d.uCount < 1)
    (hv : ∀ i, 0 ≤ d.shapeUs i ∧ d.shapeUs i < 1) :
    (30 ≤ (spawnAsteroid t d).radius ∧ (spawnAsteroid t d).radius < 60) ∧
    (8 ≤ (spawnAsteroid t d).vertices.length ∧
      (spawnAsteroid t d).vertices.length < 13) ∧
    (∀ v ∈ (spawnAsteroid t d).vertices, 7/10 ≤ v.radius ∧ v.radius < 1) ∧
    (-(1/40) ≤ (spawnAsteroid t d).rotationSpeed ∧
      (spawnAsteroid t d).rotationSpeed < 1/40) ∧
    (20 ≤ (spawnAsteroid t d).hue ∧ (spawnAsteroid t d).hue < 40) ∧
    (∀ a : Asteroid, (moveAsteroid a).vertices = a.vertices) ∧
    (∀ (s : GameState) (now cw ch : ℚ) (draws : ℕ → ℕ → ParticleDraw),
      ∀ b ∈ (updateAsteroids now cw ch draws s).asteroids,
        ∃ a ∈ s.asteroids, b.vertices = a.vertices) ∧
    (∀ s : GameState,
      ({ s with particles := updateParticles s.particles } : GameState).asteroids
        = s.asteroids) := by
  have hfl0 : 0 ≤ ⌊d.uCount * 5⌋ := Int.floor_nonneg.mpr (by positivity)
  have hfl4 : ⌊d.uCount * 5⌋ < 5 := Int.floor_lt.mpr (by push_cast; linarith)
  have hlen : (spawnAsteroid t d).vertices.length = 8 + (⌊d.uCount * 5⌋).toNat := by
    show (generateAsteroidShape d.uCount d.shapeUs).length = _
    simp [generateAsteroidShape]
  refine ⟨⟨?_, ?_⟩, ⟨?_, ?_⟩, ?_, ⟨?_, ?_⟩, ⟨?_, ?_⟩, fun a => rfl, ?_, fun s => rfl⟩
  · show 30 ≤ 30 + d.uRadius * 30
    linarith
  · show 30 + d.uRadius * 30 < 60
    linarith
  · rw [hlen]; omega
  · rw [hlen]; omega
  · intro v hvm
    have : v ∈ generateAsteroidShape d.uCount d.shapeUs := hvm
    simp only [generateAsteroidShape, List.mem_map, List.mem_range] at this
    obtain ⟨i, hi, hveq⟩ := this
    have hb := hv i
    rw [show v.radius = 7/10 + d.shapeUs i * (3/10) by rw [hveq.symm]]
    constructor <;> linarith [hb.1, hb.2]
  · show -(1/40) ≤ (d.uRotSpeed - 1/2) * (5/100)
    linarith
  · show (d.uRotSpeed - 1/2) * (5/100) < 1/40
    linarith
  · show 20 ≤ 20 + d.uHue * 20
    linarith
  · show 20 + d.uHue * 20 < 40
    linarith
  · intro s now cw ch draws b hb
    rcases updateAsteroidsAux_vertices now (cw/2) (ch/2) draws s.asteroids 0
        { s with asteroids := [] } b hb with ⟨c, hc, hvv⟩ | h
    · exact ⟨c, hc, hvv⟩
    · exact absurd h (List.not_mem_nil b)

/-- C6 witness: the spawn with every random draw at 1/2 produces a
radius-45 asteroid with 10 vertices, inside all the claimed ranges. -/
theorem c6_witness :
    ((0:ℚ) ≤ 1/2 ∧ (1/2:ℚ) < 1) ∧
    (30 ≤ (spawnAsteroid 0
        ⟨0, 0, 1, 0, 0, 1/2, 1/2, 1/2, 1/2, 1/2, fun _ => 1/2⟩).radius ∧
      (spawnAsteroid 0
        ⟨0, 0, 1, 0, 0, 1/2, 1/2, 1/2, 1/2, 1/2, fun _ => 1/2⟩).radius < 60) ∧
    (8 ≤ (spawnAsteroid 0
        ⟨0, 0, 1, 0, 0, 1/2, 1/2, 1/2, 1/2, 1/2, fun _ => 1/2⟩).vertices.length ∧
      (spawnAsteroid 0
        ⟨0, 0, 1, 0, 0, 1/2, 1/2, 1/2, 1/2, 1/2, fun _ => 1/2⟩).vertices.length
        < 13) := by
  obtain ⟨hA, hB, -⟩ :=
    c6_spawn_invariants 0 ⟨0, 0, 1, 0, 0, 1/2, 1/2, 1/2, 1/2, 1/2, fun _ => 1/2⟩
      (by norm_num) (by norm_num) (by norm_num) (by norm_num) (by norm_num)
      (by norm_num) (by norm_num) (by norm_num)
      (fun i => by norm_num)
  exact ⟨by norm_num, hA, hB⟩

/-- Helper for C4: with no detection the pass can only move asteroids
and hand out center-zone impacts — the destroy path (score, combo,
particle bursts) is never taken and the cursor is untouched. -/
theorem updateAsteroidsAux_undetected (now cx cy : ℚ)
    (draws : ℕ → ℕ → ParticleDraw) :
    ∀ (L : List Asteroid) (i : ℕ) (s : GameState),
      s.fingerPosition.detected = false →
      (updateAsteroidsAux now cx cy draws i L s).score = s.score ∧
      (updateAsteroidsAux now cx cy draws i L s).particles = s.particles ∧
      (updateAsteroidsAux now cx cy draws i L s).combo = s.combo ∧
      (updateAsteroidsAux now cx cy draws i L s).fingerPosition = s.fingerPosition := by
  intro L
  induction L with
  | nil =>
    intro i s h
    exact ⟨rfl, rfl, rfl, rfl⟩
  | cons a rest ih =>
    intro i s h
    obtain ⟨ihs, ihp, ihc, ihf⟩ := ih (i + 1) s h
    have hdet : (updateAsteroidsAux now cx cy draws (i + 1) rest s).fingerPosition.detected = false := by
      rw [ihf]
      exact h
    have hhit : cursorHit (moveAsteroid a)
        (updateAsteroidsAux now cx cy draws (i + 1) rest s).fingerPosition = false := by
      simp [cursorHit, hdet]
    simp only [updateAsteroidsAux, processAsteroid, hhit, Bool.false_eq_true,
      if_false]
    by_cases h2 : centerHit (moveAsteroid a) cx cy
    · rw [if_pos h2]
      have lp := loseLife_proj (updateAsteroidsAux now cx cy draws (i + 1) rest s)
      refine ⟨?_, ?_, ?_, ?_⟩
      · show (loseLife (updateAsteroidsAux now cx cy draws (i + 1) rest s)).score = s.score
        rw [lp.2.2.2.1, ihs]
      · show (loseLife (updateAsteroidsAux now cx cy draws (i + 1) rest s)).particles = s.particles
        rw [lp.2.1, ihp]
      · show (loseLife (updateAsteroidsAux now cx cy draws (i + 1) rest s)).combo = s.combo
        rw [lp.2.2.2.2.1, ihc]
      · show (loseLife (updateAsteroidsAux now cx cy draws (i + 1) rest s)).fingerPosition = s.fingerPosition
        rw [lp.2.2.1, ihf]
    · rw [if_neg h2]
      exact ⟨ihs, ihp, ihc, ihf⟩

/-- C4: for a detected cursor, the destroy condition of the update pass
holds exactly when the Euclidean distance from the asteroid to the
cursor is strictly below `radius + cursorRadius`; at exactly that
distance (distance squared equal to the squared sum) it does not fire;
with no detection it never fires, and an entire pass leaves score,
combo and particles unchanged. -/
theorem c4_cursor_collision (a : Asteroid) (f : FingerPosition) :
    (f.detected = true →
      (cursorHit a f = true ↔
        Real.sqrt (((a.x - f.x)^2 + (a.y - f.y)^2 : ℚ) : ℝ) <
          ((a.radius + cursorRadius : ℚ) : ℝ))) ∧
    ((a.x - f.x)^2 + (a.y - f.y)^2 = (a.radius + cursorRadius)^2 →
      cursorHit a f = false) ∧
    (f.detected = false → cursorHit a f = false) ∧
    (∀ (s : GameState) (now cw ch : ℚ) (draws : ℕ → ℕ → ParticleDraw),
      s.fingerPosition.detected = false →
      (updateAsteroids now cw ch draws s).score = s.score ∧
      (updateAsteroids now cw ch draws s).particles = s.particles ∧
      (updateAsteroids now cw ch draws s).combo = s.combo) := by
  refine ⟨?_, ?_, ?_, ?_⟩
  · intro hdet
    constructor
    · intro h
      simp only [cursorHit, hdet, Bool.true_and, Bool.and_eq_true,
        decide_eq_true_eq] at h
      rw [sqrt_lt_iff_sq]
      constructor
      · exact_mod_cast h.1
      · push_cast
        exact_mod_cast h.2
    · intro h
      rw [sqrt_lt_iff_sq] at h
      simp only [cursorHit, hdet, Bool.true_and, Bool.and_eq_true,
        decide_eq_true_eq]
      constructor
      · exact_mod_cast h.1
      · have h2 := h.2
        push_cast at h2
        exact_mod_cast h2
  · intro heq
    simp [cursorHit, heq]
  · intro hdet
    simp [cursorHit, hdet]
  · intro s now cw ch draws h
    obtain ⟨hs, hp, hc, -⟩ := updateAsteroidsAux_undetected now (cw/2) (ch/2)
      draws s.asteroids 0 { s with asteroids := [] } h
    exact ⟨hs, hp, hc⟩

/-- C4 witness: an asteroid of radius 30 whose center is exactly 90
(the collision radius 30 + 60) away from a detected cursor at the
origin is not destroyed. -/
theorem c4_witness :
    (((⟨54, 72, 0, 0, 30, 0, 0, [], 25⟩ : Asteroid).x -
        (⟨0, 0, true⟩ : FingerPosition).x)^2 +
      ((⟨54, 72, 0, 0, 30, 0, 0, [], 25⟩ : Asteroid).y -
        (⟨0, 0, true⟩ : FingerPosition).y)^2 =
      ((⟨54, 72, 0, 0, 30, 0, 0, [], 25⟩ : Asteroid).radius + cursorRadius)^2) ∧
    cursorHit ⟨54, 72, 0, 0, 30, 0, 0, [], 25⟩ ⟨0, 0, true⟩ = false := by
  have h : ((⟨54, 72, 0, 0, 30, 0, 0, [], 25⟩ : Asteroid).x -
        (⟨0, 0, true⟩ : FingerPosition).x)^2 +
      ((⟨54, 72, 0, 0, 30, 0, 0, [], 25⟩ : Asteroid).y -
        (⟨0, 0, true⟩ : FingerPosition).y)^2 =
      ((⟨54, 72, 0, 0, 30, 0, 0, [], 25⟩ : Asteroid).radius + cursorRadius)^2 := by
    show ((54:ℚ) - 0)^2 + ((72:ℚ) - 0)^2 = ((30:ℚ) + cursorRadius)^2
    norm_num [cursorRadius]
  exact ⟨h,
    (c4_cursor_collision ⟨54, 72, 0, 0, 30, 0, 0, [], 25⟩ ⟨0, 0, true⟩).2.1 h⟩

/-- Helper for C2: `loseLife` leaves the playing flag alone while lives
remain. -/
theorem loseLife_isPlaying_pos (u : GameState) (h : ¬ u.lives - 1 ≤ 0) :
    (loseLife u).isPlaying = u.isPlaying := by
  simp [loseLife, gameOver, h]

/-- Helper for C2: `loseLife` at the last life (or below) always ends
the session. -/
theorem loseLife_isPlaying_zero (u : GameState) (h : u.lives - 1 ≤ 0) :
    (loseLife u).isPlaying = false := by
  simp [loseLife, gameOver, h]

/-- C2 (amended): with 3 lives the first two impacts keep the session
playing, the third ends it (`isPlaying = false`, lives 0); once
`isPlaying` is false the game loop is frozen, so no impact fires on any
later frame.  However the asteroid pass itself has no `isPlaying`
check: an asteroid reaching the center zone is still processed as an
impact even in a state that is no longer playing — so a 4th impact CAN
fire inside the same simulation step that consumed the third life. -/
theorem c2_lives_gameover (s : GameState) :
    (s.lives = 3 →
      (loseLife s).lives = 2 ∧
      (loseLife s).isPlaying = s.isPlaying ∧
      (loseLife (loseLife s)).lives = 1 ∧
      (loseLife (loseLife s)).isPlaying = s.isPlaying ∧
      (loseLife (loseLife (loseLife s))).lives = 0 ∧
      (loseLife (loseLife (loseLife s))).isPlaying = false) ∧
    (∀ (currentTime lastFrame now cw ch : ℚ) (sd : SpawnDraws)
        (draws : ℕ → ℕ → ParticleDraw),
      s.isPlaying = false →
      gameLoopStep s currentTime lastFrame now cw ch sd draws = s) ∧
    (∀ (a : Asteroid) (now cx cy : ℚ) (draw : ℕ → ParticleDraw),
      cursorHit (moveAsteroid a) s.fingerPosition = false →
      centerHit (moveAsteroid a) cx cy = true →
      (processAsteroid now cx cy draw a s).lives = s.lives - 1) := by
  refine ⟨fun hl => ?_, fun currentTime lastFrame now cw ch sd draws h => ?_,
    fun a now cx cy draw h1 h2 => ?_⟩
  · have l1 : (loseLife s).lives = 2 := by
      rw [(loseLife_proj s).2.2.2.2.2.2, hl]
      norm_num
    have p1 : (loseLife s).isPlaying = s.isPlaying :=
      loseLife_isPlaying_pos s (by rw [hl]; norm_num)
    have l2 : (loseLife (loseLife s)).lives = 1 := by
      rw [(loseLife_proj (loseLife s)).2.2.2.2.2.2, l1]
      norm_num
    have p2 : (loseLife (loseLife s)).isPlaying = s.isPlaying := by
      rw [loseLife_isPlaying_pos (loseLife s) (by rw [l1]; norm_num), p1]
    have l3 : (loseLife (loseLife (loseLife s))).lives = 0 := by
      rw [(loseLife_proj (loseLife (loseLife s))).2.2.2.2.2.2, l2]
      norm_num
    have p3 : (loseLife (loseLife (loseLife s))).isPlaying = false :=
      loseLife_isPlaying_zero (loseLife (loseLife s)) (by rw [l2]; norm_num)
    exact ⟨l1, p1, l2, p2, l3, p3⟩
  · simp [gameLoopStep, h]
  · simp only [processAsteroid, h1, Bool.false_eq_true, if_false, h2, if_true]
    show (loseLife s).lives = s.lives - 1
    exact (loseLife_proj s).2.2.2.2.2.2

/-- C2 witness: from the fresh state (3 lives, not yet playing, no
detection) three impacts reach lives 0 and stop the session, a frame on
a non-playing state is the identity, and a center-zone asteroid still
costs a life in that non-playing state. -/
theorem c2_witness :
    ((initState 0).lives = 3 ∧
      (initState 0).isPlaying = false ∧
      cursorHit (moveAsteroid centerAsteroid) (initState 0).fingerPosition
        = false ∧
      centerHit (moveAsteroid centerAsteroid) 400 300 = true) ∧
    (loseLife (loseLife (loseLife (initState 0)))).lives = 0 ∧
    (loseLife (loseLife (loseLife (initState 0)))).isPlaying = false ∧
    gameLoopStep (initState 0) 0 0 0 800 600
      ⟨0, 0, 1, 0, 0, 0, 0, 0, 0, 0, fun _ => 0⟩ constDraws = initState 0 ∧
    (processAsteroid 0 400 300 (constDraws 0) centerAsteroid
      (initState 0)).lives = (initState 0).lives - 1 := by
  have hcur : cursorHit (moveAsteroid centerAsteroid)
      (initState 0).fingerPosition = false := by
    simp [cursorHit, moveAsteroid, centerAsteroid, initState]
  have hcen : centerHit (moveAsteroid centerAsteroid) 400 300 = true := by
    simp only [centerHit, decide_eq_true_eq, moveAsteroid, centerAsteroid]
    norm_num
  obtain ⟨h1, h2, h3⟩ := c2_lives_gameover (initState 0)
  obtain ⟨-, -, -, -, l3, p3⟩ := h1 rfl
  exact ⟨⟨rfl, rfl, hcur, hcen⟩, l3, p3,
    h2 0 0 0 800 600 ⟨0, 0, 1, 0, 0, 0, 0, 0, 0, 0, fun _ => 0⟩ constDraws rfl,
    h3 centerAsteroid 0 400 300 (constDraws 0) hcur hcen⟩

/-- C2 counterexample: in a reachable playing state with 3 lives, no
hand detection, and four asteroids inside the center zone, one
simulation step processes all four impacts: lives end at -1, so a 4th
impact event fires, three of them after lives already reached 0 within
the same pass. -/
theorem c2_counterexample :
    quadCenterState.lives = 3 ∧
    quadCenterState.isPlaying = true ∧
    (updateAsteroids 0 800 600 constDraws quadCenterState).lives = -1 ∧
    (updateAsteroids 0 800 600 constDraws quadCenterState).isPlaying = false := by
  refine ⟨rfl, rfl, ?_, ?_⟩ <;>
    norm_num [updateAsteroids, updateAsteroidsAux, processAsteroid,
      moveAsteroid, cursorHit, centerHit, loseLife, gameOver, quadCenterState,
      centerAsteroid, initState, initialLives, constDraws]

end AsteroidGame
